import Mathlib

/-!
Verification development for the KidneyOS memory and threading core.

The definitions below are a shallow embedding of the Rust sources:
  - `src/kernel/src/mem/mod.rs` (the global kernel heap allocator facade),
  - `src/kernel/src/threading/thread_control_block.rs` (TCB construction
    and reaping),
  - `src/kernel/src/threading/scheduling/mod.rs` (the yield variants),
  - `src/kernel/src/threading/thread_sleep.rs` (sleep and wakeup).

Machine integers are modelled as `Nat` (pointers are kernel-virtual byte
addresses, the null pointer is `0`); fallible code returns `Option` or a
result inductive where `none` / a dedicated constructor stands for a Rust
panic or a `halt!`. Code of the repository that is not among the staged
source files (the frame allocator solution, the dummy allocator, the FIFO
scheduler queue and the switch-threads context) is modelled from the
specification text; every such definition carries a doc comment starting
with `Modelled from the spec:`.
-/

namespace KidneyOS

/-! ### Constants (src/kernel/src/mem/mod.rs and thread_control_block.rs) -/

/-- Size in bytes of one physical page frame (`PAGE_FRAME_SIZE`). -/
def PAGE_FRAME_SIZE : Nat := 4096

/-- The alignment of a layout cannot be greater than the size of a page
(`MAX_SUPPORTED_ALIGN` in mem/mod.rs). -/
def MAX_SUPPORTED_ALIGN : Nat := 4096

/-- Bytes in a kilobyte (`KB` from kidneyos_shared::sizes). -/
def KB : Nat := 1024

/-- Bytes in a megabyte (`MB` from kidneyos_shared::sizes). -/
def MB : Nat := 1024 * 1024

/-- Modelled from the spec: the identity-map offset constant `OFFSET` of
kidneyos_shared (the kernel views a frame via a virtual address offset by a
constant OFFSET); its numeric value is not in the staged sources, a fixed
higher-half constant is used. No claim depends on the value. -/
def OFFSET : Nat := 0xC0000000

/-- Upper memory starts at 1MB (`UPPER_MEMORY_START = MB + OFFSET`). -/
def UPPER_MEMORY_START : Nat := MB + OFFSET

/-- Modelled from the spec: `trampoline_heap_top()` of kidneyos_shared, the
base address of the managed frame region; its numeric value is not in the
staged sources, a fixed positive page-aligned constant is used. -/
def TRAMPOLINE_HEAP_TOP : Nat := OFFSET + 4 * MB

/-- Kernel stacks span two frames (`KERNEL_THREAD_STACK_FRAMES`). -/
def KERNEL_THREAD_STACK_FRAMES : Nat := 2

/-- `KERNEL_THREAD_STACK_SIZE = KERNEL_THREAD_STACK_FRAMES * PAGE_FRAME_SIZE`. -/
def KERNEL_THREAD_STACK_SIZE : Nat := KERNEL_THREAD_STACK_FRAMES * PAGE_FRAME_SIZE

/-- User stacks span `4 * 1024` frames (`USER_THREAD_STACK_FRAMES`). -/
def USER_THREAD_STACK_FRAMES : Nat := 4 * 1024

/-- `USER_THREAD_STACK_SIZE = USER_THREAD_STACK_FRAMES * PAGE_FRAME_SIZE`. -/
def USER_THREAD_STACK_SIZE : Nat := USER_THREAD_STACK_FRAMES * PAGE_FRAME_SIZE

/-- The fixed user virtual address of the bottom of the user stack
(`USER_STACK_BOTTOM_VIRT = 0x100000`). -/
def USER_STACK_BOTTOM_VIRT : Nat := 0x100000

/-- Modelled from the spec: the byte size of `SwitchThreadsContext` (the
machine-specific frame pre-loaded on a new kernel stack; five saved 32-bit
registers in the context-switch frame: edi, esi, ebx, ebp, eip). The file
thread_functions.rs is not among the staged sources. -/
def SWITCH_THREADS_CONTEXT_SIZE : Nat := 20

/-- Modelled from the spec: a stand-in byte value for the contents the
context setup writes onto the kernel stack (the trampoline frame is not
all zeroes: it holds the address of `prepare_thread`). Only the fact that
these writes hit the kernel stack and nothing else matters to the claims. -/
def SWITCH_CONTEXT_BYTE : Nat := 1

/-- The address produced by `NonNull::dangling()` for `u8`: the alignment
of the pointee, which is 1. -/
def NONNULL_DANGLING : Nat := 1

/-! ### Thread status and thread control blocks
(src/kernel/src/threading/thread_control_block.rs) -/

/-- `ThreadStatus` of thread_control_block.rs. -/
inductive ThreadStatus where
  | Invalid
  | Running
  | Ready
  | Blocked
  | Dying
deriving DecidableEq

/-- One virtual-memory mapping installed through
`page_manager.map_range(phys, virt, len, writable, user)`. -/
structure PageMapping where
  phys : Nat
  virt : Nat
  len : Nat
  writable : Bool
  user : Bool
deriving DecidableEq

/-- `ThreadControlBlock` of thread_control_block.rs. Pointers are byte
addresses; the page manager is the list of mappings installed through it. -/
structure ThreadControlBlock where
  kernel_stack_pointer : Nat
  kernel_stack : Nat
  eip : Nat
  esp : Nat
  user_stack : Nat
  tid : Nat
  status : ThreadStatus
  exit_code : Option Int
  page_manager : List PageMapping
deriving DecidableEq

/-- `ThreadControlBlock::set_exit_code`. -/
def set_exit_code (tcb : ThreadControlBlock) (code : Int) : ThreadControlBlock :=
  { tcb with exit_code := some code }

/-- `ThreadControlBlock::reap`. The `assert!` that the thread is dying is a
panic on any other status, modelled as `none`. For a non-zero tid the stack
pointers are replaced by `NonNull::dangling()`; no memory is deallocated
(the source carries a TODO in place of the deallocation). The status always
becomes `Invalid` when the assertion passes. -/
def reap (tcb : ThreadControlBlock) : Option ThreadControlBlock :=
  if tcb.status = ThreadStatus.Dying then
    if tcb.tid ≠ 0 then
      some { tcb with
        kernel_stack_pointer := NONNULL_DANGLING,
        eip := NONNULL_DANGLING,
        esp := NONNULL_DANGLING,
        status := ThreadStatus.Invalid }
    else
      some { tcb with status := ThreadStatus.Invalid }
  else
    none

/-! ### The scheduler (src/kernel/src/threading/scheduling/mod.rs)

The FIFO queue implementation (fifo_scheduler.rs) is not among the staged
sources; per the spec the scheduler owns an ordered queue of TCBs with
`push` enqueueing at the tail, `pop` dequeueing from the head and `get_mut`
a linear lookup by TID. The queue is a `List ThreadControlBlock` whose head
is popped first.

`scheduler_yield` is a loop: pop; a `Blocked` TCB is pushed back and the
loop continues; any other TCB is switched to. The embedding bounds the
number of requeue iterations by a fuel parameter: an outcome of `fuelOut`
for every fuel value is exactly the Rust loop never exiting. -/

/-- Outcome of the pop loop inside `scheduler_yield`. -/
inductive YieldOutcome where
  | noSwitch
  | switched (chosen : ThreadControlBlock) (rest : List ThreadControlBlock)
  | fuelOut (q : List ThreadControlBlock)
deriving DecidableEq

/-- The pop loop of `scheduler_yield` (`while let Some(switch_to) =
scheduler.pop()`): a popped `Blocked` TCB is re-enqueued at the tail,
any other popped TCB is context-switched to. `fuel` bounds only the
re-enqueue iterations. -/
def yieldLoop : Nat → List ThreadControlBlock → YieldOutcome
  | _, [] => YieldOutcome.noSwitch
  | 0, t :: rest =>
    match t.status with
    | ThreadStatus.Blocked => YieldOutcome.fuelOut (rest ++ [t])
    | _ => YieldOutcome.switched t rest
  | fuel + 1, t :: rest =>
    match t.status with
    | ThreadStatus.Blocked => yieldLoop fuel (rest ++ [t])
    | _ => YieldOutcome.switched t rest

/-- What a call to one of the yield variants does, seen from the caller.
`controlReturns` records whether, after a context switch away, this thread
is ever switched back in (in which case the call returns to its caller). -/
inductive CallOutcome where
  | returnedNormally
  | panicked (msg : String)
  | switchedAway (outgoing : ThreadStatus)
  | stillLooping
deriving DecidableEq

/-- `scheduler_yield(status_for_current_thread)`: runs the pop loop and, on
finding a runnable TCB, invokes `switch_threads(status_for_current_thread,
switch_to)`. When the queue empties the function simply returns. -/
def scheduler_yield (st : ThreadStatus) (fuel : Nat) (q : List ThreadControlBlock)
    (controlReturns : Bool) : CallOutcome :=
  match yieldLoop fuel q with
  | YieldOutcome.noSwitch => CallOutcome.returnedNormally
  | YieldOutcome.switched _ _ =>
    if controlReturns then CallOutcome.returnedNormally else CallOutcome.switchedAway st
  | YieldOutcome.fuelOut _ => CallOutcome.stillLooping

/-- `scheduler_yield_and_continue()`. -/
def scheduler_yield_and_continue (fuel : Nat) (q : List ThreadControlBlock)
    (controlReturns : Bool) : CallOutcome :=
  scheduler_yield ThreadStatus.Ready fuel q controlReturns

/-- `scheduler_yield_and_die()`: yields with outgoing status `Dying`; if the
yield ever returns, panics with "A thread was rescheduled after dying.". -/
def scheduler_yield_and_die (fuel : Nat) (q : List ThreadControlBlock)
    (controlReturns : Bool) : CallOutcome :=
  match scheduler_yield ThreadStatus.Dying fuel q controlReturns with
  | CallOutcome.returnedNormally =>
    CallOutcome.panicked "A thread was rescheduled after dying."
  | o => o

/-- `scheduler_yield_and_block()`. -/
def scheduler_yield_and_block (fuel : Nat) (q : List ThreadControlBlock)
    (controlReturns : Bool) : CallOutcome :=
  scheduler_yield ThreadStatus.Blocked fuel q controlReturns

/-- `thread_sleep()` of thread_sleep.rs: its body is exactly a call to
`scheduler_yield_and_block()`. -/
def thread_sleep (fuel : Nat) (q : List ThreadControlBlock)
    (controlReturns : Bool) : CallOutcome :=
  scheduler_yield_and_block fuel q controlReturns

/-- `thread_wakeup(tid)` of thread_sleep.rs: `get_mut` (modelled from the
spec: a linear lookup by TID across the queued TCBs, the queue files are
not among the staged sources) finds the first TCB with the given tid and
sets its status to `Ready`; a missing tid leaves the queue unchanged. -/
def thread_wakeup (tid : Nat) : List ThreadControlBlock → List ThreadControlBlock
  | [] => []
  | t :: rest =>
    if t.tid = tid then { t with status := ThreadStatus.Ready } :: rest
    else t :: thread_wakeup tid rest

/-- The pop loop never exits: for every fuel bound it is still requeueing. -/
def yieldLoopsForever (q : List ThreadControlBlock) : Prop :=
  ∀ fuel, ∃ q', yieldLoop fuel q = YieldOutcome.fuelOut q'

/-! ### Frame allocator (modelled) and the global heap facade
(src/kernel/src/mem/mod.rs)

The file frame_allocator.rs (CoreMapEntry, FrameAllocatorSolution,
DummyAllocatorSolution) is not among the staged sources; those three are
modelled from the specification (core map with mark_allocated, mark_free
and a linear first-fit find_free_run; a bump allocator for the setup
phase). The facade in mem/mod.rs is embedded from the source. -/

/-- Modelled from the spec: one core-map entry: `allocated: bool` and
`run_length: usize`, meaningful on the first frame of an allocation. -/
structure CoreMapEntry where
  allocated : Bool
  runLength : Nat
deriving DecidableEq

/-- Modelled from the spec: `CoreMapEntry::DEFAULT`, a free entry. -/
def CoreMapEntry.DEFAULT : CoreMapEntry := { allocated := false, runLength := 0 }

/-- Modelled from the spec: `mark_allocated(start, n)` sets `allocated` on
`[start, start+n)` and writes the run length at `start`. -/
def markAllocated (m : Nat → CoreMapEntry) (start n : Nat) : Nat → CoreMapEntry :=
  fun i =>
    if start ≤ i ∧ i < start + n then
      { allocated := true, runLength := if i = start then n else 0 }
    else m i

/-- Modelled from the spec: `mark_free(start)` reads the run length at
`start` and clears `allocated` across that run. -/
def markFree (m : Nat → CoreMapEntry) (start : Nat) : Nat → CoreMapEntry :=
  fun i =>
    if start ≤ i ∧ i < start + (m start).runLength then
      { allocated := false, runLength := 0 }
    else m i

/-- Modelled from the spec: the linear first-fit scan of `find_free_run`,
one index per step; `runLen` counts the current run of free entries ending
just before `idx`. -/
def findFreeRunGo (m : Nat → CoreMapEntry) (n : Nat) : Nat → Nat → Nat → Option Nat
  | _, _, 0 => none
  | idx, runLen, fuel + 1 =>
    if (m idx).allocated then findFreeRunGo m n (idx + 1) 0 fuel
    else if runLen + 1 = n then some (idx + 1 - n)
    else findFreeRunGo m n (idx + 1) (runLen + 1) fuel

/-- Modelled from the spec: `find_free_run(n)`: first-fit scan over the
`numFrames` entries of the core map; `none` is `OutOfMemory`. -/
def findFreeRun (m : Nat → CoreMapEntry) (numFrames n : Nat) : Option Nat :=
  findFreeRunGo m n 0 0 numFrames

/-- Modelled from the spec: `FrameAllocatorSolution`: base pointer of the
managed region, the core map, the frame count, plus the cumulative
frames-in / frames-out accounting the spec requires of alloc and dealloc. -/
structure FrameAlloc where
  base : Nat
  numFrames : Nat
  coreMap : Nat → CoreMapEntry
  allocTotal : Nat
  deallocTotal : Nat

/-- Modelled from the spec: `FrameAllocatorSolution::new_in`. -/
def FrameAlloc.new_in (base numFrames : Nat) : FrameAlloc :=
  { base := base, numFrames := numFrames, coreMap := fun _ => CoreMapEntry.DEFAULT,
    allocTotal := 0, deallocTotal := 0 }

/-- Modelled from the spec: `FrameAllocator::alloc(n)`: first-fit over the
core map, marks the run allocated and returns `base + start*FRAME_SIZE`;
`none` is `OutOfMemory` (an `AllocError`). -/
def FrameAlloc.alloc (fa : FrameAlloc) (n : Nat) : Option (Nat × FrameAlloc) :=
  match findFreeRun fa.coreMap fa.numFrames n with
  | none => none
  | some start =>
    some (fa.base + start * PAGE_FRAME_SIZE,
      { fa with coreMap := markAllocated fa.coreMap start n,
                allocTotal := fa.allocTotal + n })

/-- Modelled from the spec: `FrameAllocator::dealloc(ptr)`: computes
`start = (ptr - base) / FRAME_SIZE`, reads the run length, marks the run
free and returns the run length for accounting. -/
def FrameAlloc.dealloc (fa : FrameAlloc) (ptr : Nat) : Nat × FrameAlloc :=
  let start := (ptr - fa.base) / PAGE_FRAME_SIZE
  let n := (fa.coreMap start).runLength
  (n, { fa with coreMap := markFree fa.coreMap start,
                deallocTotal := fa.deallocTotal + n })

/-- Align `a` up to the next multiple of 4096 (`next_multiple_of` on the
page size, used by the dummy allocator to align its start). -/
def alignUpPage (a : Nat) : Nat := ((a + PAGE_FRAME_SIZE - 1) / PAGE_FRAME_SIZE) * PAGE_FRAME_SIZE

/-- Modelled from the spec: `DummyAllocatorSolution`: a bump allocator over
`[start, endAddr)` that never frees. -/
structure DummyAllocator where
  start : Nat
  endAddr : Nat
deriving DecidableEq

/-- Modelled from the spec: the dummy allocator serves `alloc(n_frames)` by
aligning `start` up to a page boundary, checking the region fits below
`endAddr`, advancing `start` and returning the old aligned value; `none` is
`OutOfMemory`. -/
def DummyAllocator.alloc (d : DummyAllocator) (nFrames : Nat) : Option (Nat × DummyAllocator) :=
  let aligned := alignUpPage d.start
  if aligned + nFrames * PAGE_FRAME_SIZE ≤ d.endAddr then
    some (aligned, { start := aligned + nFrames * PAGE_FRAME_SIZE, endAddr := d.endAddr })
  else none

/-- `KernelAllocatorState` of mem/mod.rs: `Deinitialized`, `SetupState`
holding the dummy allocator, or `Initialized` holding the frame allocator
(the sub-block allocator is the unimplemented `DumbSubblockAllocator`,
carried as `Unit`). -/
inductive KernelAllocatorState where
  | Deinitialized
  | SetupState (dummy : DummyAllocator)
  | Initialized (frame : FrameAlloc) (subblock : Unit)

/-- The global allocator state: the `KernelAllocator` plus the four global
allocation counters of mem/mod.rs. -/
structure HeapState where
  state : KernelAllocatorState
  totalNumAllocations : Nat
  totalNumDeallocations : Nat
  totalNumFramesAllocated : Nat
  totalNumFramesDeallocated : Nat

/-- Result of a call into the facade: a returned pointer (0 is null) with
the post-state, or a `halt!` (the facade cannot panic, it halts). -/
inductive AllocResult where
  | returned (ptr : Nat) (hs : HeapState)
  | halted (msg : String)

/-- The returned pointer of an `AllocResult`, when it returned at all. -/
def AllocResult.returnedPtr : AllocResult → Option Nat
  | AllocResult.returned p _ => some p
  | AllocResult.halted _ => none

/-- The post-state of an `AllocResult`, when it returned at all. -/
def AllocResult.returnedState : AllocResult → Option HeapState
  | AllocResult.returned _ s => some s
  | AllocResult.halted _ => none

/-- Rust `next_multiple_of`: the smallest multiple of `k` that is `≥ a`. -/
def nextMultipleOf (a k : Nat) : Nat :=
  if a % k = 0 then a else (a / k + 1) * k

/-- The frame count the facade computes for a layout:
`((size + align).next_multiple_of(PAGE_FRAME_SIZE)) / PAGE_FRAME_SIZE`. -/
def numFramesRequested (size align : Nat) : Nat :=
  nextMultipleOf (size + align) PAGE_FRAME_SIZE / PAGE_FRAME_SIZE

/-- `GlobalAlloc::alloc` for `KernelAllocator` (mem/mod.rs): the branch is
chosen by `TOTAL_NUM_ALLOCATIONS == 0`. The first-ever allocation must find
the allocator in `SetupState` and is served by the dummy allocator; any
later allocation must find it `Initialized`, and, the sub-block allocator
being unimplemented, bumps the counters and returns the null pointer. In
both branches a layout alignment above `MAX_SUPPORTED_ALIGN` returns null
before anything else happens. -/
def kernelAllocatorAlloc (hs : HeapState) (size align : Nat) : AllocResult :=
  if hs.totalNumAllocations = 0 then
    match hs.state with
    | KernelAllocatorState.SetupState dummy =>
      if align > MAX_SUPPORTED_ALIGN then AllocResult.returned 0 hs
      else
        match dummy.alloc (numFramesRequested size align) with
        | none => AllocResult.halted "Unable to allocate memory according to provided layout, PANIC!"
        | some (ptr, dummy1) =>
          AllocResult.returned ptr
            { hs with state := KernelAllocatorState.SetupState dummy1,
                      totalNumAllocations := hs.totalNumAllocations + 1,
                      totalNumFramesAllocated :=
                        hs.totalNumFramesAllocated + numFramesRequested size align }
    | _ => AllocResult.halted "Kernel initialized before Coremap entries were setup, abort"
  else
    match hs.state with
    | KernelAllocatorState.Initialized _ _ =>
      if align > MAX_SUPPORTED_ALIGN then AllocResult.returned 0 hs
      else
        AllocResult.returned 0
          { hs with totalNumAllocations := hs.totalNumAllocations + 1,
                    totalNumFramesAllocated :=
                      hs.totalNumFramesAllocated + numFramesRequested size align }
    | _ => AllocResult.halted "Second and later allocations should not be allocated by Dummy Allocator, abort"

/-- `GlobalAlloc::dealloc` for `KernelAllocator` (mem/mod.rs): requires the
`Initialized` state (`none` is the halt), delegates to the frame allocator
and bumps the deallocation counters by one call and by the number of frames
the run held. -/
def kernelAllocatorDealloc (hs : HeapState) (ptr : Nat) : Option HeapState :=
  match hs.state with
  | KernelAllocatorState.Initialized fa sb =>
    let r := fa.dealloc ptr
    some { hs with state := KernelAllocatorState.Initialized r.2 sb,
                   totalNumDeallocations := hs.totalNumDeallocations + 1,
                   totalNumFramesDeallocated := hs.totalNumFramesDeallocated + r.1 }
  | _ => none

/-- `KernelAllocator::deinit` (mem/mod.rs): panics (`Except.error`) when
called in any state but `Initialized`; in `Initialized` it compares the
allocation counters pairwise and panics with "Leaks detected" on any
mismatch, otherwise the state becomes `Deinitialized`. -/
def deinit (hs : HeapState) : Except String HeapState :=
  match hs.state with
  | KernelAllocatorState.Initialized _ _ =>
    if hs.totalNumAllocations ≠ hs.totalNumDeallocations ∨
       hs.totalNumFramesAllocated ≠ hs.totalNumFramesDeallocated then
      Except.error "Leaks detected"
    else
      Except.ok { hs with state := KernelAllocatorState.Deinitialized }
  | _ => Except.error "deinit called before initialization of kernel allocator"

/-- Modelled from the spec: the byte size of a `CoreMapEntry` in the Rust
layout (`bool` plus `usize` on a 32-bit target), used by `init` to divide
the managed region into core-map space and frames. -/
def SIZE_OF_CORE_MAP_ENTRY : Nat := 8

/-- Modelled from the spec: the alignment of a `CoreMapEntry` (that of
`usize` on a 32-bit target), the alignment of the core-map allocation. -/
def ALIGN_OF_CORE_MAP_ENTRY : Nat := 4

/-- The last step of `init`: the `assert_ne!` that the dummy allocator
advanced past the base, then the `Initialized` state is installed with a
frame allocator based at the advanced start address (split from `heapInit`
purely so each proof step stays small). -/
def heapInitFinish (numFrames framesBase : Nat) (hs2 : HeapState) : Option HeapState :=
  match hs2.state with
  | KernelAllocatorState.SetupState dummy2 =>
    if framesBase = dummy2.start then none
    else
      let fa := FrameAlloc.new_in dummy2.start numFrames
      some { hs2 with state := KernelAllocatorState.Initialized fa () }
  | _ => none

/-- The tail of `init` after the core-map allocation: a halt propagates, a
null pointer from the allocation is a failed `Box` allocation (split from
`heapInit` purely so each proof step stays small). -/
def heapInitCont (numFrames framesBase : Nat) (r : AllocResult) : Option HeapState :=
  match r with
  | AllocResult.halted _ => none
  | AllocResult.returned p hs2 =>
    if p = 0 then none else heapInitFinish numFrames framesBase hs2

/-- `KernelAllocator::init(mem_upper)` (mem/mod.rs): requires `SetupState`
with a zeroed dummy allocator (the two `assert_eq!`), points the dummy
allocator at the managed region, allocates the core map through the global
facade (the `vec!` of `CoreMapEntry::DEFAULT`, the first global allocation
in the system), and finishes through `heapInitCont`. `none` is any of the
assertion or allocation failures. -/
def heapInit (hs : HeapState) (memUpper : Nat) : Option HeapState :=
  match hs.state with
  | KernelAllocatorState.SetupState dummy =>
    if dummy.start = 0 then
      if dummy.endAddr = 0 then
        let framesCeil := UPPER_MEMORY_START + memUpper * KB
        let framesBase := TRAMPOLINE_HEAP_TOP
        let numFrames := (framesCeil - framesBase) / (SIZE_OF_CORE_MAP_ENTRY + PAGE_FRAME_SIZE)
        let dummy1 : DummyAllocator := { start := framesBase, endAddr := framesCeil }
        let hs1 : HeapState := { hs with state := KernelAllocatorState.SetupState dummy1 }
        heapInitCont numFrames framesBase
          (kernelAllocatorAlloc hs1 (numFrames * SIZE_OF_CORE_MAP_ENTRY)
            ALIGN_OF_CORE_MAP_ENTRY)
      else none
    else none
  | _ => none

/-! ### Thread creation (src/kernel/src/threading/thread_control_block.rs)

`new_func` builds a TCB: fresh tid, kernel stack (two frames, zeroed),
user stack (4096 frames, mapped at `USER_STACK_BOTTOM_VIRT` and, for
`new_func`, zero-initialized), then the context-switch frame is written at
the top of the kernel stack and the status becomes `Ready`. The kernel
state carries the frame allocator, a byte-addressed kernel-virtual memory
and the `NEXT_UNRESERVED_TID` counter. -/

/-- Byte-granular `write_bytes(dst, v, n)` over the flat memory. -/
def writeBytes (mem : Nat → Nat) (dst v n : Nat) : Nat → Nat :=
  fun a => if dst ≤ a ∧ a < dst + n then v else mem a

/-- The kernel state thread construction runs in: the frame allocator (the
`Initialized` allocator behind `KERNEL_ALLOCATOR.frame_alloc`), the
kernel-virtual memory contents, and the `NEXT_UNRESERVED_TID` counter. -/
structure KernelState where
  fa : FrameAlloc
  mem : Nat → Nat
  nextTid : Nat

/-- `allocate_tid()`: `fetch_add` on the `AtomicU16` counter: returns the
old value and wraps at 2^16. -/
def allocate_tid (s : KernelState) : Nat × KernelState :=
  (s.nextTid % 65536, { s with nextTid := (s.nextTid + 1) % 65536 })

/-- `ThreadControlBlock::allocate_kernel_stack`: two frames from
`frame_alloc` (a failure is the `expect` panic, `none`), zero-filled; the
returned pair is the stack base and the stack-top pointer. -/
def allocate_kernel_stack (s : KernelState) : Option ((Nat × Nat) × KernelState) :=
  match s.fa.alloc KERNEL_THREAD_STACK_FRAMES with
  | none => none
  | some r =>
    some ((r.1, r.1 + KERNEL_THREAD_STACK_SIZE),
      { s with fa := r.2, mem := writeBytes s.mem r.1 0 KERNEL_THREAD_STACK_SIZE })

/-- `ThreadControlBlock::allocate_user_stack`: `USER_THREAD_STACK_FRAMES`
frames from `frame_alloc` (a failure is the `expect` panic, `none`), mapped
at `USER_STACK_BOTTOM_VIRT` writable and user-accessible, and zero-filled
when `zero_init` holds. -/
def allocate_user_stack (pm : List PageMapping) (zeroInit : Bool) (s : KernelState) :
    Option ((Nat × List PageMapping) × KernelState) :=
  match s.fa.alloc USER_THREAD_STACK_FRAMES with
  | none => none
  | some r =>
    some ((r.1,
        pm ++ [{ phys := r.1 - OFFSET, virt := USER_STACK_BOTTOM_VIRT,
                 len := USER_THREAD_STACK_SIZE, writable := true, user := true }]),
      { s with fa := r.2,
               mem := if zeroInit then writeBytes s.mem r.1 0 USER_THREAD_STACK_SIZE
                      else s.mem })

/-- `ThreadControlBlock::has_stack_space`: whether `bytes` more bytes fit
between the stack pointer and the stack base. -/
def has_stack_space (tcb : ThreadControlBlock) (bytes : Nat) : Bool :=
  decide (bytes ≤ tcb.kernel_stack_pointer - tcb.kernel_stack)

/-- `ThreadControlBlock::allocate_stack_space`: `None` without space,
otherwise the stack pointer moves down and the new value is returned. -/
def allocate_stack_space (tcb : ThreadControlBlock) (bytes : Nat) :
    Option (Nat × ThreadControlBlock) :=
  if has_stack_space tcb bytes then
    some (tcb.kernel_stack_pointer - bytes,
      { tcb with kernel_stack_pointer := tcb.kernel_stack_pointer - bytes })
  else none

/-- `ThreadControlBlock::setup_context`: reserves the switch-threads frame
on the kernel stack (the `expect` panic on overflow is `none`) and writes
the `SwitchThreadsContext` bytes there. -/
def setup_context (tcb : ThreadControlBlock) (s : KernelState) :
    Option (ThreadControlBlock × KernelState) :=
  match allocate_stack_space tcb SWITCH_THREADS_CONTEXT_SIZE with
  | none => none
  | some r =>
    some (r.2,
      { s with mem := writeBytes s.mem r.1 SWITCH_CONTEXT_BYTE SWITCH_THREADS_CONTEXT_SIZE })

/-- `ThreadControlBlock::new_func(entry)`: fresh tid, kernel stack, user
stack (zero-initialized), the TCB literal with status `Invalid`, eip the
entry pointer, esp `USER_STACK_BOTTOM_VIRT + USER_THREAD_STACK_SIZE` and no
exit code, then `setup_context`, then status `Ready`. -/
def new_func (entry : Nat) (s : KernelState) : Option (ThreadControlBlock × KernelState) :=
  let rt := allocate_tid s
  match allocate_kernel_stack rt.2 with
  | none => none
  | some rk =>
    match allocate_user_stack [] true rk.2 with
    | none => none
    | some ru =>
      let tcb0 : ThreadControlBlock :=
        { kernel_stack_pointer := rk.1.2, kernel_stack := rk.1.1, eip := entry,
          esp := USER_STACK_BOTTOM_VIRT + USER_THREAD_STACK_SIZE, user_stack := ru.1.1,
          tid := rt.1, status := ThreadStatus.Invalid, exit_code := none,
          page_manager := ru.1.2 }
      match setup_context tcb0 ru.2 with
      | none => none
      | some rc => some ({ rc.1 with status := ThreadStatus.Ready }, rc.2)

/-! ### Concrete threads and queues used by witnesses -/

/-- A concrete blocked TCB. -/
def blockedW : ThreadControlBlock :=
  { kernel_stack_pointer := 4096, kernel_stack := 0, eip := 64, esp := 128,
    user_stack := 8192, tid := 7, status := ThreadStatus.Blocked,
    exit_code := none, page_manager := [] }

/-- A concrete ready TCB. -/
def readyW : ThreadControlBlock :=
  { kernel_stack_pointer := 4096, kernel_stack := 0, eip := 32, esp := 256,
    user_stack := 8192, tid := 9, status := ThreadStatus.Ready,
    exit_code := none, page_manager := [] }

/-- A concrete TCB whose status is already `Invalid`. -/
def invalidW : ThreadControlBlock :=
  { kernel_stack_pointer := 4096, kernel_stack := 0, eip := 16, esp := 512,
    user_stack := 8192, tid := 3, status := ThreadStatus.Invalid,
    exit_code := none, page_manager := [] }

/-- A concrete TCB whose status is `Dying`. -/
def dyingW : ThreadControlBlock :=
  { kernel_stack_pointer := 4096, kernel_stack := 0, eip := 16, esp := 512,
    user_stack := 8192, tid := 4, status := ThreadStatus.Dying,
    exit_code := none, page_manager := [] }

/-! ### Concrete heap states used by witnesses -/

/-- A concrete frame allocator with a large, fully free managed region. -/
def faInitW : FrameAlloc := FrameAlloc.new_in (OFFSET + 8 * MB) 100000

/-- A concrete post-init heap state: `Initialized`, one allocation (the
core map) on record. -/
def hsInitW : HeapState :=
  { state := KernelAllocatorState.Initialized faInitW (),
    totalNumAllocations := 1, totalNumDeallocations := 0,
    totalNumFramesAllocated := 129, totalNumFramesDeallocated := 0 }

/-- A concrete leaky heap state: three allocations, two deallocations. -/
def hsLeakyW : HeapState :=
  { state := KernelAllocatorState.Initialized faInitW (),
    totalNumAllocations := 3, totalNumDeallocations := 2,
    totalNumFramesAllocated := 3, totalNumFramesDeallocated := 2 }

/-- A concrete balanced heap state: both counter pairs agree. -/
def hsCleanW : HeapState :=
  { state := KernelAllocatorState.Initialized faInitW (),
    totalNumAllocations := 2, totalNumDeallocations := 2,
    totalNumFramesAllocated := 5, totalNumFramesDeallocated := 5 }

/-- A concrete setup-phase dummy allocator with plenty of room. -/
def dummySetupW : DummyAllocator :=
  { start := TRAMPOLINE_HEAP_TOP, endAddr := TRAMPOLINE_HEAP_TOP + 64 * MB }

/-- A concrete setup-phase heap state before the first allocation. -/
def hsSetupW : HeapState :=
  { state := KernelAllocatorState.SetupState dummySetupW,
    totalNumAllocations := 0, totalNumDeallocations := 0,
    totalNumFramesAllocated := 0, totalNumFramesDeallocated := 0 }

/-- Base address of the concrete managed region used by witnesses. -/
def s0Base : Nat := OFFSET + 8 * MB

/-- A concrete kernel state with 5000 free frames and next tid 5. -/
def s0W : KernelState :=
  { fa := FrameAlloc.new_in s0Base 5000, mem := fun _ => 0, nextTid := 5 }

/-- The frame allocator after `new_func` ran on `s0W`: the kernel stack
occupies frames 0..1, the user stack frames 2..4097, 4098 frames total. -/
def faW77 : FrameAlloc :=
  { base := s0Base, numFrames := 5000,
    coreMap := markAllocated (markAllocated (fun _ => CoreMapEntry.DEFAULT) 0 2) 2 4096,
    allocTotal := 4098, deallocTotal := 0 }

/-- The TCB `new_func 77` builds on `s0W`. -/
def tcbW77 : ThreadControlBlock :=
  { kernel_stack_pointer := s0Base + 8192 - 20, kernel_stack := s0Base, eip := 77,
    esp := 17825792, user_stack := s0Base + 8192, tid := 5,
    status := ThreadStatus.Ready, exit_code := none,
    page_manager := [{ phys := s0Base + 8192 - OFFSET, virt := 1048576, len := 16777216, writable := true, user := true }] }

/-- The memory after `new_func 77` ran on `s0W`: zeroed kernel stack,
zeroed user stack, context bytes at the top of the kernel stack. -/
def sW77mem : Nat → Nat :=
  writeBytes (writeBytes (writeBytes (fun _ => 0) s0Base 0 8192) (s0Base + 8192) 0 16777216) (s0Base + 8192 - 20) 1 20

/-- The kernel state after `new_func 77` ran on `s0W`. -/
def sW77 : KernelState :=
  { fa := faW77, mem := sW77mem, nextTid := 6 }

/-! ## Theorems -/

/-- Aligning up to a page boundary never moves an address down. -/
theorem le_alignUpPage (a : Nat) : a ≤ alignUpPage a := by
  unfold alignUpPage PAGE_FRAME_SIZE
  omega

/-- The pop loop returns at once on the empty queue, whatever the fuel. -/
theorem yieldLoop_nil (fuel : Nat) : yieldLoop fuel [] = YieldOutcome.noSwitch := by
  cases fuel <;> rfl

/-- Helper: the pop loop on a non-empty queue of exclusively `Blocked` TCBs
requeues forever: every fuel value is exhausted, and the queue stays a
non-empty all-blocked queue. -/
theorem yieldLoop_all_blocked :
    ∀ (fuel : Nat) (q : List ThreadControlBlock), q ≠ [] →
      (∀ t, t ∈ q → t.status = ThreadStatus.Blocked) →
      ∃ q', yieldLoop fuel q = YieldOutcome.fuelOut q' ∧ q' ≠ [] ∧
        (∀ t, t ∈ q' → t.status = ThreadStatus.Blocked) := by
  intro fuel
  induction fuel with
  | zero =>
    intro q hne hall
    match q with
    | [] => exact absurd rfl hne
    | t :: rest =>
      have ht : t.status = ThreadStatus.Blocked := hall t (List.mem_cons_self t rest)
      refine ⟨rest ++ [t], ?_, ?_, ?_⟩
      · simp [yieldLoop, ht]
      · simp
      · intro u hu
        rcases List.mem_append.mp hu with h | h
        · exact hall u (List.mem_cons_of_mem t h)
        · simp at h; subst h; exact ht
  | succ fuel ih =>
    intro q hne hall
    match q with
    | [] => exact absurd rfl hne
    | t :: rest =>
      have ht : t.status = ThreadStatus.Blocked := hall t (List.mem_cons_self t rest)
      have hall' : ∀ u, u ∈ rest ++ [t] → u.status = ThreadStatus.Blocked := by
        intro u hu
        rcases List.mem_append.mp hu with h | h
        · exact hall u (List.mem_cons_of_mem t h)
        · simp at h; subst h; exact ht
      have hne' : rest ++ [t] ≠ [] := by simp
      obtain ⟨q', h1, h2, h3⟩ := ih (rest ++ [t]) hne' hall'
      refine ⟨q', ?_, h2, h3⟩
      simpa [yieldLoop, ht] using h1

/-- C3 (amended): when the ready queue is empty, `scheduler_yield` returns
to the caller without a context switch; but when the queue is non-empty and
every queued TCB is `Blocked`, the pop loop re-enqueues forever and the
call never terminates (so it also performs no context switch). -/
theorem scheduler_yield_no_runnable (st : ThreadStatus) (fuel : Nat)
    (q : List ThreadControlBlock) (cr : Bool)
    (hall : ∀ t, t ∈ q → t.status = ThreadStatus.Blocked) :
    (q = [] → scheduler_yield st fuel q cr = CallOutcome.returnedNormally) ∧
    (q ≠ [] → scheduler_yield st fuel q cr = CallOutcome.stillLooping) := by
  constructor
  · intro h; subst h; simp [scheduler_yield, yieldLoop_nil]
  · intro hne
    obtain ⟨q', h1, _, _⟩ := yieldLoop_all_blocked fuel q hne hall
    simp [scheduler_yield, h1]

/-- Witness for `scheduler_yield_no_runnable` at concrete queues. -/
theorem scheduler_yield_no_runnable_witness :
    scheduler_yield ThreadStatus.Ready 3 [] false = CallOutcome.returnedNormally ∧
    scheduler_yield ThreadStatus.Ready 3 [blockedW] false = CallOutcome.stillLooping := by
  constructor
  · exact (scheduler_yield_no_runnable ThreadStatus.Ready 3 [] false
      (by intro t ht; cases ht)).1 rfl
  · exact (scheduler_yield_no_runnable ThreadStatus.Ready 3 [blockedW] false
      (by intro t ht; simp at ht; subst ht; rfl)).2 (by simp)

/-- C3 (counterexample): on the concrete queue holding one blocked TCB the
pop loop never exits (it is still running whatever fuel bound is given), so
the claim that the call terminates and returns to the caller fails. -/
theorem scheduler_yield_blocked_queue_loops :
    yieldLoopsForever [blockedW] ∧ blockedW.status = ThreadStatus.Blocked := by
  constructor
  · intro fuel
    obtain ⟨q', h1, _, _⟩ := yieldLoop_all_blocked fuel [blockedW] (by simp)
      (by intro t ht; simp at ht; subst ht; rfl)
    exact ⟨q', h1⟩
  · rfl

/-- C8: `thread_wakeup(tid)` sets the status of the first TCB with a
matching tid to `Ready`, leaves every other field of every TCB and the
queue order unchanged, and is a no-op when no queued TCB has that tid. -/
theorem thread_wakeup_spec (tid : Nat) :
    (∀ q : List ThreadControlBlock, (∀ t, t ∈ q → t.tid ≠ tid) →
      thread_wakeup tid q = q) ∧
    (∀ (q₁ : List ThreadControlBlock) (t : ThreadControlBlock)
      (q₂ : List ThreadControlBlock), (∀ u, u ∈ q₁ → u.tid ≠ tid) → t.tid = tid →
      thread_wakeup tid (q₁ ++ t :: q₂) =
        q₁ ++ { t with status := ThreadStatus.Ready } :: q₂) := by
  constructor
  · intro q
    induction q with
    | nil => intro _; rfl
    | cons t rest ih =>
      intro h
      have ht : t.tid ≠ tid := h t (List.mem_cons_self t rest)
      have hrest := ih (fun u hu => h u (List.mem_cons_of_mem t hu))
      simp [thread_wakeup, ht, hrest]
  · intro q₁
    induction q₁ with
    | nil =>
      intro t q₂ _ ht
      simp [thread_wakeup, ht]
    | cons u rest ih =>
      intro t q₂ h ht
      have hu : u.tid ≠ tid := h u (List.mem_cons_self u rest)
      have hrest := ih t q₂ (fun v hv => h v (List.mem_cons_of_mem u hv)) ht
      simp only [List.cons_append, thread_wakeup, if_neg hu, List.append_eq, hrest]

/-- Witness for `thread_wakeup_spec` at a concrete queue: waking tid 4 in
the two-element queue flips only the status of the matching TCB; waking a
missing tid is a no-op. -/
theorem thread_wakeup_spec_witness :
    thread_wakeup 4 [blockedW, dyingW] =
      [blockedW, { dyingW with status := ThreadStatus.Ready }] ∧
    thread_wakeup 100 [blockedW, dyingW] = [blockedW, dyingW] := by
  constructor
  · exact (thread_wakeup_spec 4).2 [blockedW] dyingW []
      (by intro u hu; simp at hu; subst hu; decide) rfl
  · exact (thread_wakeup_spec 100).1 [blockedW, dyingW]
      (by intro u hu; simp at hu; rcases hu with h | h <;> (subst h; decide))

/-- C9: `scheduler_yield_and_die` never returns normally: whatever the
queue, the fuel and whether control ever comes back after the switch, the
outcome is a context switch away with outgoing status `Dying`, a panic, or
the pop loop still running; a normal return is impossible. -/
theorem yield_and_die_never_returns (fuel : Nat) (q : List ThreadControlBlock)
    (cr : Bool) :
    (match scheduler_yield_and_die fuel q cr with
     | CallOutcome.returnedNormally => False
     | CallOutcome.switchedAway st => st = ThreadStatus.Dying
     | CallOutcome.panicked msg => msg = "A thread was rescheduled after dying."
     | CallOutcome.stillLooping => True) := by
  unfold scheduler_yield_and_die scheduler_yield
  cases h : yieldLoop fuel q with
  | noSwitch => simp
  | switched t rest => cases cr <;> simp
  | fuelOut q' => simp

/-- C10: `thread_sleep()` is exactly `scheduler_yield` with outgoing status
`Blocked` (that is, `scheduler_yield_and_block`), at every queue, fuel
bound and resumption behaviour. -/
theorem thread_sleep_is_yield_and_block (fuel : Nat) (q : List ThreadControlBlock)
    (cr : Bool) :
    thread_sleep fuel q cr = scheduler_yield ThreadStatus.Blocked fuel q cr ∧
    thread_sleep fuel q cr = scheduler_yield_and_block fuel q cr :=
  ⟨rfl, rfl⟩

/-- C2: once `TOTAL_NUM_ALLOCATIONS` is non-zero (which `init` makes true
of every `Initialized` state: the core-map `vec!` is the first global
allocation, see `heapInit_allocations`), `GlobalAlloc::alloc` in the
`Initialized` state returns the null pointer for every layout; and for a
layout whose alignment is within `MAX_SUPPORTED_ALIGN` it still bumps
`TOTAL_NUM_ALLOCATIONS` by one and `TOTAL_NUM_FRAMES_ALLOCATED` by the
computed frame count before returning null. -/
theorem alloc_after_init_returns_null (hs : HeapState) (fa : FrameAlloc) (sb : Unit)
    (size align : Nat) (h1 : hs.state = KernelAllocatorState.Initialized fa sb)
    (h2 : hs.totalNumAllocations ≠ 0) :
    (kernelAllocatorAlloc hs size align).returnedPtr = some 0 ∧
    (align ≤ MAX_SUPPORTED_ALIGN →
      (kernelAllocatorAlloc hs size align).returnedState =
        some { hs with
          totalNumAllocations := hs.totalNumAllocations + 1,
          totalNumFramesAllocated :=
            hs.totalNumFramesAllocated + numFramesRequested size align }) := by
  obtain ⟨st, c1, c2, c3, c4⟩ := hs
  simp only at h1 h2
  subst h1
  by_cases ha : align > MAX_SUPPORTED_ALIGN
  · constructor
    · simp [kernelAllocatorAlloc, h2, ha, AllocResult.returnedPtr]
    · intro hle; omega
  · constructor
    · simp [kernelAllocatorAlloc, h2, ha, AllocResult.returnedPtr]
    · intro _
      simp [kernelAllocatorAlloc, h2, ha, AllocResult.returnedState]

/-- Witness for `alloc_after_init_returns_null` at a concrete post-init
state and layout (size 8, align 8). -/
theorem alloc_after_init_returns_null_witness :
    (kernelAllocatorAlloc hsInitW 8 8).returnedPtr = some 0 ∧
    (kernelAllocatorAlloc hsInitW 8 8).returnedState =
      some { hsInitW with
        totalNumAllocations := hsInitW.totalNumAllocations + 1,
        totalNumFramesAllocated :=
          hsInitW.totalNumFramesAllocated + numFramesRequested 8 8 } :=
  ⟨(alloc_after_init_returns_null hsInitW faInitW () 8 8 rfl (by decide)).1,
   (alloc_after_init_returns_null hsInitW faInitW () 8 8 rfl (by decide)).2 (by decide)⟩

/-- C5: in the `Initialized` state, `deinit` panics with "Leaks detected"
exactly when `TOTAL_NUM_ALLOCATIONS` differs from `TOTAL_NUM_DEALLOCATIONS`
or `TOTAL_NUM_FRAMES_ALLOCATED` differs from
`TOTAL_NUM_FRAMES_DEALLOCATED`; when both pairs agree it returns normally
and the state becomes `Deinitialized`. -/
theorem deinit_leak_check (hs : HeapState) (fa : FrameAlloc) (sb : Unit)
    (h : hs.state = KernelAllocatorState.Initialized fa sb) :
    (deinit hs = Except.error "Leaks detected" ↔
      (hs.totalNumAllocations ≠ hs.totalNumDeallocations ∨
       hs.totalNumFramesAllocated ≠ hs.totalNumFramesDeallocated)) ∧
    ((hs.totalNumAllocations = hs.totalNumDeallocations ∧
      hs.totalNumFramesAllocated = hs.totalNumFramesDeallocated) →
      deinit hs = Except.ok { hs with state := KernelAllocatorState.Deinitialized }) := by
  obtain ⟨st, c1, c2, c3, c4⟩ := hs
  simp only at h
  subst h
  by_cases hmis : c1 ≠ c2 ∨ c3 ≠ c4
  · constructor
    · simp [deinit, hmis]
    · rintro ⟨e1, e2⟩
      simp only at e1 e2
      rcases hmis with hm | hm
      · exact absurd e1 hm
      · exact absurd e2 hm
  · constructor
    · simp only [deinit, if_neg hmis]
      constructor
      · intro hok; cases hok
      · intro hor; exact absurd hor hmis
    · intro _; simp [deinit, hmis]

/-- Witness for `deinit_leak_check`: the leaky concrete state panics with
"Leaks detected", the balanced one deinitializes normally. -/
theorem deinit_leak_check_witness :
    deinit hsLeakyW = Except.error "Leaks detected" ∧
    deinit hsCleanW = Except.ok { hsCleanW with state := KernelAllocatorState.Deinitialized } :=
  ⟨(deinit_leak_check hsLeakyW faInitW () rfl).1.mpr (Or.inl (by decide)),
   (deinit_leak_check hsCleanW faInitW () rfl).2 ⟨rfl, rfl⟩⟩

/-- C6 (amended): a layout alignment strictly above the frame size always
yields the null pointer (when the call returns at all rather than halting);
alignment exactly the frame size succeeds with a non-null pointer only on
the first-ever allocation, served by the setup-phase dummy allocator with
enough room; in the `Initialized` state (every allocation after init) the
call returns null for every layout, frame-aligned or not, because the
sub-block allocator is unimplemented. -/
theorem alloc_alignment_contract (size align : Nat) (hs : HeapState) :
    (MAX_SUPPORTED_ALIGN < align →
      (kernelAllocatorAlloc hs size align).returnedPtr = some 0 ∨
      (kernelAllocatorAlloc hs size align).returnedPtr = none) ∧
    (∀ d : DummyAllocator, align = PAGE_FRAME_SIZE →
      hs.state = KernelAllocatorState.SetupState d → hs.totalNumAllocations = 0 →
      0 < d.start →
      alignUpPage d.start + numFramesRequested size align * PAGE_FRAME_SIZE ≤ d.endAddr →
      (kernelAllocatorAlloc hs size align).returnedPtr = some (alignUpPage d.start) ∧
      0 < alignUpPage d.start) ∧
    (∀ (fa : FrameAlloc) (sb : Unit),
      hs.state = KernelAllocatorState.Initialized fa sb →
      hs.totalNumAllocations ≠ 0 → align = PAGE_FRAME_SIZE →
      (kernelAllocatorAlloc hs size align).returnedPtr = some 0) := by
  obtain ⟨st, c1, c2, c3, c4⟩ := hs
  refine ⟨?_, ?_, ?_⟩
  · intro ha
    by_cases hc : c1 = 0 <;> cases st <;>
      simp [kernelAllocatorAlloc, hc, ha, AllocResult.returnedPtr]
  · intro d hal hst hc hpos hroom
    simp only at hst hc
    subst hst; subst hc
    have hnotgt : ¬ align > MAX_SUPPORTED_ALIGN := by
      rw [hal]; decide
    constructor
    · simp [kernelAllocatorAlloc, hnotgt, DummyAllocator.alloc, hroom,
        AllocResult.returnedPtr]
    · exact Nat.lt_of_lt_of_le hpos (le_alignUpPage d.start)
  · intro fa sb hst hc hal
    simp only at hst hc
    subst hst
    have hnotgt : ¬ align > MAX_SUPPORTED_ALIGN := by
      rw [hal]; decide
    simp [kernelAllocatorAlloc, hc, hnotgt, AllocResult.returnedPtr]

/-- Witness for `alloc_alignment_contract`: the very first allocation with
frame-size alignment succeeds with the aligned dummy start (non-null), and
a post-init allocation with an oversized alignment returns null. -/
theorem alloc_alignment_contract_witness :
    (kernelAllocatorAlloc hsSetupW 8 PAGE_FRAME_SIZE).returnedPtr =
      some (alignUpPage dummySetupW.start) ∧
    ((kernelAllocatorAlloc hsInitW 16 8192).returnedPtr = some 0 ∨
     (kernelAllocatorAlloc hsInitW 16 8192).returnedPtr = none) :=
  ⟨((alloc_alignment_contract 8 PAGE_FRAME_SIZE hsSetupW).2.1 dummySetupW rfl rfl rfl
      (by decide) (by decide)).1,
   (alloc_alignment_contract 16 8192 hsInitW).1 (by decide)⟩

/-- C6 (counterexample): with the allocator `Initialized`, a vast free
region on hand and a layout aligned exactly to the frame size, the global
allocate still returns the null pointer, refuting the claim that
frame-size alignment succeeds. -/
theorem alloc_frame_align_null_after_init :
    (kernelAllocatorAlloc hsInitW 8 PAGE_FRAME_SIZE).returnedPtr = some 0 ∧
    PAGE_FRAME_SIZE = MAX_SUPPORTED_ALIGN ∧ faInitW.numFrames = 100000 := by
  refine ⟨rfl, rfl, rfl⟩

/-- Helper: in the `SetupState`, a `returned` result of the facade either
is the oversized-alignment early return (null pointer, state untouched) or
went through the dummy allocator: the count of allocations was zero and is
now one, and the state is still `SetupState`. -/
theorem alloc_setup_returned (hs : HeapState) (d : DummyAllocator) (size align p : Nat)
    (hs2 : HeapState) (hst : hs.state = KernelAllocatorState.SetupState d)
    (h : kernelAllocatorAlloc hs size align = AllocResult.returned p hs2) :
    (p = 0 ∧ hs2 = hs) ∨
    (hs.totalNumAllocations = 0 ∧ hs2.totalNumAllocations = 1 ∧
     ∃ d2, hs2.state = KernelAllocatorState.SetupState d2) := by
  obtain ⟨st, c1, c2, c3, c4⟩ := hs
  simp only at hst
  subst hst
  by_cases hc : c1 = 0
  · subst hc
    by_cases ha : align > MAX_SUPPORTED_ALIGN
    · simp only [kernelAllocatorAlloc, if_pos, ha, if_true,
        AllocResult.returned.injEq] at h
      exact Or.inl ⟨h.1.symm, h.2.symm⟩
    · cases hda : DummyAllocator.alloc d (numFramesRequested size align) with
      | none => simp [kernelAllocatorAlloc, ha, hda] at h
      | some pd =>
        simp only [kernelAllocatorAlloc, if_pos, ha, if_false, hda,
          AllocResult.returned.injEq] at h
        refine Or.inr ⟨rfl, ?_, ?_⟩
        · rw [← h.2]
        · rw [← h.2]; exact ⟨pd.2, rfl⟩
  · simp [kernelAllocatorAlloc, hc] at h

/-- Helper: a successful `heapInit` leaves exactly one allocation on record
and an `Initialized` state: every reachable `Initialized` state therefore
has `TOTAL_NUM_ALLOCATIONS ≠ 0`, the hypothesis of
`alloc_after_init_returns_null`. -/
theorem heapInit_allocations (hs : HeapState) (mu : Nat) (hs2 : HeapState)
    (h : heapInit hs mu = some hs2) :
    hs2.totalNumAllocations = 1 ∧
    ∃ fa, hs2.state = KernelAllocatorState.Initialized fa () := by
  obtain ⟨st, c1, c2, c3, c4⟩ := hs
  cases st with
  | Deinitialized => exact Option.noConfusion h
  | Initialized fa sb => exact Option.noConfusion h
  | SetupState dummy =>
    dsimp only [heapInit] at h
    by_cases h0 : dummy.start = 0
    · rw [if_pos h0] at h
      by_cases h0e : dummy.endAddr = 0
      · rw [if_pos h0e] at h
        cases hres : kernelAllocatorAlloc
            { state := KernelAllocatorState.SetupState
                { start := TRAMPOLINE_HEAP_TOP, endAddr := UPPER_MEMORY_START + mu * KB },
              totalNumAllocations := c1, totalNumDeallocations := c2,
              totalNumFramesAllocated := c3, totalNumFramesDeallocated := c4 }
            ((UPPER_MEMORY_START + mu * KB - TRAMPOLINE_HEAP_TOP) /
              (SIZE_OF_CORE_MAP_ENTRY + PAGE_FRAME_SIZE) * SIZE_OF_CORE_MAP_ENTRY)
            ALIGN_OF_CORE_MAP_ENTRY with
        | halted msg =>
          rw [hres] at h
          simp only [heapInitCont] at h
          exact Option.noConfusion h
        | returned p hsA =>
          rw [hres] at h
          simp only [heapInitCont] at h
          by_cases hp : p = 0
          · rw [if_pos hp] at h
            exact Option.noConfusion h
          · rw [if_neg hp] at h
            have hsr := alloc_setup_returned _ _ _ _ _ _ rfl hres
            rcases hsr with ⟨hp0, _⟩ | ⟨_, hcount, d2, hstate⟩
            · exact absurd hp0 hp
            · obtain ⟨st2, b1, b2, b3, b4⟩ := hsA
              simp only at hcount hstate
              subst hstate
              simp only [heapInitFinish] at h
              by_cases hb : TRAMPOLINE_HEAP_TOP = d2.start
              · rw [if_pos hb] at h
                exact Option.noConfusion h
              · rw [if_neg hb] at h
                injection h with h
                subst h
                exact ⟨hcount, ⟨_, rfl⟩⟩
      · rw [if_neg h0e] at h
        exact Option.noConfusion h
    · rw [if_neg h0] at h
      exact Option.noConfusion h

/-- Helper: a run returned by the first-fit scan is genuinely free: the
invariant carried is that the `runLen` entries before `idx` are free. -/
theorem findFreeRunGo_free (m : Nat → CoreMapEntry) (n : Nat) :
    ∀ (fuel idx runLen start : Nat), runLen ≤ idx →
      (∀ j, j < runLen → (m (idx - runLen + j)).allocated = false) →
      findFreeRunGo m n idx runLen fuel = some start →
      ∀ j, j < n → (m (start + j)).allocated = false := by
  intro fuel
  induction fuel with
  | zero => intro idx runLen start _ _ h; exact Option.noConfusion h
  | succ fuel ih =>
    intro idx runLen start hle hfree h
    simp only [findFreeRunGo] at h
    by_cases hA : (m idx).allocated = true
    · rw [if_pos hA] at h
      exact ih (idx + 1) 0 start (Nat.zero_le _) (by intro j hj; omega) h
    · rw [if_neg hA] at h
      have hA2 : (m idx).allocated = false := by
        revert hA; cases (m idx).allocated <;> simp
      by_cases hEq : runLen + 1 = n
      · rw [if_pos hEq] at h
        injection h with h
        intro j hj
        by_cases hj2 : j < runLen
        · have haddr : start + j = idx - runLen + j := by omega
          rw [haddr]; exact hfree j hj2
        · have haddr : start + j = idx := by omega
          rw [haddr]; exact hA2
      · rw [if_neg hEq] at h
        refine ih (idx + 1) (runLen + 1) start (by omega) ?_ h
        intro j hj
        by_cases hj2 : j < runLen
        · have haddr : idx + 1 - (runLen + 1) + j = idx - runLen + j := by omega
          rw [haddr]; exact hfree j hj2
        · have haddr : idx + 1 - (runLen + 1) + j = idx := by omega
          rw [haddr]; exact hA2

/-- Helper: the scan standing at the start of a free window of length `n`
returns the base of that window. -/
theorem findFreeRunGo_free_run (m : Nat → CoreMapEntry) (n : Nat) :
    ∀ (fuel idx runLen : Nat), runLen < n → runLen ≤ idx →
      (∀ j, j < n → (m (idx - runLen + j)).allocated = false) →
      n - runLen ≤ fuel →
      findFreeRunGo m n idx runLen fuel = some (idx - runLen) := by
  intro fuel
  induction fuel with
  | zero => intro idx runLen h1 _ _ h4; omega
  | succ fuel ih =>
    intro idx runLen h1 h2 hfree h4
    have hA : (m idx).allocated = false := by
      have hx := hfree runLen (by omega)
      have haddr : idx - runLen + runLen = idx := by omega
      rwa [haddr] at hx
    simp only [findFreeRunGo]
    rw [if_neg (by simp [hA])]
    by_cases hEq : runLen + 1 = n
    · rw [if_pos hEq]
      congr 1
      omega
    · rw [if_neg hEq]
      have hrec := ih (idx + 1) (runLen + 1) (by omega) (by omega)
        (by intro j hj
            have haddr : idx + 1 - (runLen + 1) + j = idx - runLen + j := by omega
            rw [haddr]; exact hfree j hj)
        (by omega)
      rw [hrec]
      congr 1
      omega

/-- Helper: the scan skips over a fully allocated prefix. -/
theorem findFreeRunGo_skip (m : Nat → CoreMapEntry) (n : Nat) :
    ∀ (k idx fuel : Nat),
      (∀ i, i < k → (m (idx + i)).allocated = true) →
      findFreeRunGo m n idx 0 (k + fuel) = findFreeRunGo m n (idx + k) 0 fuel := by
  intro k
  induction k with
  | zero => intro idx fuel _; simp
  | succ k ih =>
    intro idx fuel halloc
    have hA : (m idx).allocated = true := by simpa using halloc 0 (by omega)
    rw [show k + 1 + fuel = (k + fuel) + 1 from by omega]
    simp only [findFreeRunGo]
    rw [if_pos hA]
    have hrec := ih (idx + 1) fuel (by
      intro i hi
      have hx := halloc (i + 1) (by omega)
      rwa [show idx + (i + 1) = idx + 1 + i from by omega] at hx)
    rw [hrec, show idx + 1 + k = idx + (k + 1) from by omega]

/-- Helper: on a core map whose entries below `k` are allocated and whose
entries from `k` on are free, first fit places a run of `n` frames exactly
at `k` (given it fits below `N`). -/
theorem findFreeRun_prefix (m : Nat → CoreMapEntry) (N n k : Nat)
    (hn : 0 < n)
    (halloc : ∀ i, i < k → (m i).allocated = true)
    (hfree : ∀ i, k ≤ i → (m i).allocated = false)
    (hfit : k + n ≤ N) :
    findFreeRun m N n = some k := by
  unfold findFreeRun
  rw [show N = k + (N - k) from by omega,
    findFreeRunGo_skip m n k 0 (N - k) (by intro i hi; simpa using halloc i hi)]
  have h2 := findFreeRunGo_free_run m n (N - k) (0 + k) 0 (by omega) (by omega)
    (by intro j hj
        rw [show 0 + k - 0 + j = k + j from by omega]
        exact hfree (k + j) (by omega))
    (by omega)
  rw [h2]
  congr 1
  omega

/-- Helper: the run `findFreeRun` hands out is free in the pre-state map. -/
theorem findFreeRun_free (m : Nat → CoreMapEntry) (N n start : Nat)
    (h : findFreeRun m N n = some start) :
    ∀ j, j < n → (m (start + j)).allocated = false :=
  findFreeRunGo_free m n N 0 0 start (Nat.le_refl 0)
    (by intro j hj; exact absurd hj (Nat.not_lt_zero j)) h

/-- Helper: `mark_allocated` marks its run allocated. -/
theorem markAllocated_allocated_of (m : Nat → CoreMapEntry) (start n i : Nat)
    (h1 : start ≤ i) (h2 : i < start + n) :
    ((markAllocated m start n) i).allocated = true := by
  simp [markAllocated, h1, h2]

/-- Helper: `mark_allocated` leaves entries outside its run alone. -/
theorem markAllocated_outside (m : Nat → CoreMapEntry) (start n i : Nat)
    (h : ¬ (start ≤ i ∧ i < start + n)) :
    (markAllocated m start n) i = m i := by
  simp only [markAllocated, if_neg h]

/-- Helper: a successful `FrameAllocator::alloc` went through first fit:
the pointer addresses the found run, the run is marked and the cumulative
frames-allocated total grows by the run length. -/
theorem FrameAlloc.alloc_some (fa : FrameAlloc) (n : Nat) (r : Nat × FrameAlloc)
    (h : fa.alloc n = some r) :
    ∃ start, findFreeRun fa.coreMap fa.numFrames n = some start ∧
      r.1 = fa.base + start * PAGE_FRAME_SIZE ∧
      r.2 = { fa with coreMap := markAllocated fa.coreMap start n, allocTotal := fa.allocTotal + n } := by
  unfold FrameAlloc.alloc at h
  cases hf : findFreeRun fa.coreMap fa.numFrames n with
  | none => rw [hf] at h; exact Option.noConfusion h
  | some start =>
    rw [hf] at h
    injection h with h
    exact ⟨start, rfl, by rw [← h], by rw [← h]⟩

/-- Helper: field-wise characterization of a successful
`allocate_kernel_stack`. -/
theorem allocate_kernel_stack_some (s : KernelState) (r : (Nat × Nat) × KernelState)
    (h : allocate_kernel_stack s = some r) :
    ∃ k0, findFreeRun s.fa.coreMap s.fa.numFrames KERNEL_THREAD_STACK_FRAMES = some k0 ∧
      r.1.1 = s.fa.base + k0 * PAGE_FRAME_SIZE ∧
      r.1.2 = r.1.1 + KERNEL_THREAD_STACK_SIZE ∧
      r.2.fa.base = s.fa.base ∧
      r.2.fa.numFrames = s.fa.numFrames ∧
      r.2.fa.coreMap = markAllocated s.fa.coreMap k0 KERNEL_THREAD_STACK_FRAMES ∧
      r.2.fa.allocTotal = s.fa.allocTotal + KERNEL_THREAD_STACK_FRAMES ∧
      r.2.fa.deallocTotal = s.fa.deallocTotal ∧
      r.2.mem = writeBytes s.mem r.1.1 0 KERNEL_THREAD_STACK_SIZE ∧
      r.2.nextTid = s.nextTid := by
  unfold allocate_kernel_stack at h
  cases ha : s.fa.alloc KERNEL_THREAD_STACK_FRAMES with
  | none => rw [ha] at h; exact Option.noConfusion h
  | some ra =>
    rw [ha] at h
    obtain ⟨k0, hf, hp, hfa⟩ := FrameAlloc.alloc_some _ _ _ ha
    injection h with h
    subst h
    rw [hfa]
    exact ⟨k0, hf, hp, rfl, rfl, rfl, rfl, rfl, rfl, rfl, rfl⟩

/-- Helper: field-wise characterization of a successful
`allocate_user_stack`. -/
theorem allocate_user_stack_some (pm : List PageMapping) (z : Bool) (s : KernelState)
    (r : (Nat × List PageMapping) × KernelState)
    (h : allocate_user_stack pm z s = some r) :
    ∃ u0, findFreeRun s.fa.coreMap s.fa.numFrames USER_THREAD_STACK_FRAMES = some u0 ∧
      r.1.1 = s.fa.base + u0 * PAGE_FRAME_SIZE ∧
      r.1.2 = pm ++ [{ phys := r.1.1 - OFFSET, virt := USER_STACK_BOTTOM_VIRT, len := USER_THREAD_STACK_SIZE, writable := true, user := true }] ∧
      r.2.fa.base = s.fa.base ∧
      r.2.fa.numFrames = s.fa.numFrames ∧
      r.2.fa.coreMap = markAllocated s.fa.coreMap u0 USER_THREAD_STACK_FRAMES ∧
      r.2.fa.allocTotal = s.fa.allocTotal + USER_THREAD_STACK_FRAMES ∧
      r.2.fa.deallocTotal = s.fa.deallocTotal ∧
      (z = true → r.2.mem = writeBytes s.mem r.1.1 0 USER_THREAD_STACK_SIZE) ∧
      (z = false → r.2.mem = s.mem) ∧
      r.2.nextTid = s.nextTid := by
  unfold allocate_user_stack at h
  cases ha : s.fa.alloc USER_THREAD_STACK_FRAMES with
  | none => rw [ha] at h; exact Option.noConfusion h
  | some ra =>
    rw [ha] at h
    obtain ⟨u0, hf, hp, hfa⟩ := FrameAlloc.alloc_some _ _ _ ha
    injection h with h
    subst h
    rw [hfa]
    refine ⟨u0, hf, hp, rfl, rfl, rfl, rfl, rfl, rfl, ?_, ?_, rfl⟩
    · intro hz; subst hz; rfl
    · intro hz; subst hz; rfl

/-- Helper: `setup_context` with room on the kernel stack: the stack
pointer drops by the context size and the context bytes are written
there. -/
theorem setup_context_some (tcb : ThreadControlBlock) (s : KernelState)
    (hsp : SWITCH_THREADS_CONTEXT_SIZE ≤ tcb.kernel_stack_pointer - tcb.kernel_stack) :
    setup_context tcb s =
      some ({ tcb with kernel_stack_pointer := tcb.kernel_stack_pointer - SWITCH_THREADS_CONTEXT_SIZE }, { s with mem := writeBytes s.mem (tcb.kernel_stack_pointer - SWITCH_THREADS_CONTEXT_SIZE) SWITCH_CONTEXT_BYTE SWITCH_THREADS_CONTEXT_SIZE }) := by
  unfold setup_context allocate_stack_space
  rw [if_pos (show has_stack_space tcb SWITCH_THREADS_CONTEXT_SIZE = true from by
    simp [has_stack_space, hsp])]

/-- Helper: everything `new_func` guarantees about a successfully built
TCB and the post-state: status `Ready`, `eip` the entry, `esp` the fixed
user stack top, no exit code, the tid drawn from the counter, the
frames-allocated total grown by exactly the kernel-stack and user-stack
frames with nothing deallocated, and a user stack reading all zeroes. -/
theorem new_func_some (entry : Nat) (s : KernelState) (p : ThreadControlBlock × KernelState)
    (h : new_func entry s = some p) :
    p.1.status = ThreadStatus.Ready ∧
    p.1.eip = entry ∧
    p.1.esp = USER_STACK_BOTTOM_VIRT + USER_THREAD_STACK_SIZE ∧
    p.1.exit_code = none ∧
    p.1.tid = s.nextTid % 65536 ∧
    p.2.fa.allocTotal = s.fa.allocTotal + (KERNEL_THREAD_STACK_FRAMES + USER_THREAD_STACK_FRAMES) ∧
    p.2.fa.deallocTotal = s.fa.deallocTotal ∧
    (∀ i, i < USER_THREAD_STACK_SIZE → p.2.mem (p.1.user_stack + i) = 0) := by
  simp only [new_func, allocate_tid] at h
  cases hk : allocate_kernel_stack { s with nextTid := (s.nextTid + 1) % 65536 } with
  | none => rw [hk] at h; exact Option.noConfusion h
  | some rk =>
    rw [hk] at h
    dsimp only at h
    cases hu : allocate_user_stack [] true rk.2 with
    | none => rw [hu] at h; exact Option.noConfusion h
    | some ru =>
      rw [hu] at h
      dsimp only at h
      obtain ⟨k0, hkf, hkp, hkt, hkbase, hknum, hkmap, hkalloc, hkdealloc, hkmem, hktid⟩ :=
        allocate_kernel_stack_some _ _ hk
      obtain ⟨u0, huf, hup, hupm, hubase, hunum, humap, hualloc, hudealloc, humemT, humemF, hutid⟩ :=
        allocate_user_stack_some _ _ _ _ hu
      dsimp only at hkf hkp hkbase hknum hkmap hkalloc hkdealloc hkmem hktid
      rw [setup_context_some _ _ (by
        dsimp only
        rw [hkt]
        simpa using (by decide : SWITCH_THREADS_CONTEXT_SIZE ≤ KERNEL_THREAD_STACK_SIZE))] at h
      injection h with h
      subst h
      refine ⟨rfl, rfl, rfl, rfl, rfl, ?_, ?_, ?_⟩
      · dsimp only
        rw [hualloc, hkalloc, Nat.add_assoc]
      · dsimp only
        rw [hudealloc, hkdealloc]
      · intro i hi
        dsimp only
        have humem := humemT rfl
        have hfreeU : ∀ jj, jj < USER_THREAD_STACK_FRAMES →
            ((markAllocated s.fa.coreMap k0 KERNEL_THREAD_STACK_FRAMES) (u0 + jj)).allocated = false := by
          intro jj hj
          have hx := findFreeRun_free _ _ _ _ huf jj hj
          rwa [hkmap] at hx
        have hdisjF : ∀ jj, jj < USER_THREAD_STACK_FRAMES →
            ¬ (k0 ≤ u0 + jj ∧ u0 + jj < k0 + KERNEL_THREAD_STACK_FRAMES) := by
          intro jj hj hcontra
          have htrue := markAllocated_allocated_of s.fa.coreMap k0 KERNEL_THREAD_STACK_FRAMES
            (u0 + jj) hcontra.1 hcontra.2
          have hfalse := hfreeU jj hj
          rw [htrue] at hfalse
          exact Bool.noConfusion hfalse
        have hK2 : rk.1.2 = s.fa.base + k0 * 4096 + 8192 := by
          rw [hkt, hkp]
          simp only [show PAGE_FRAME_SIZE = 4096 from rfl,
            show KERNEL_THREAD_STACK_SIZE = 8192 from rfl]
        have hU2 : ru.1.1 = s.fa.base + u0 * 4096 := by
          rw [hup, hkbase]
          simp only [show PAGE_FRAME_SIZE = 4096 from rfl]
        have hdj := hdisjF (i / 4096) (by
          simp only [show USER_THREAD_STACK_FRAMES = 4096 from rfl]
          have : i < 16777216 := by
            simpa only [show USER_THREAD_STACK_SIZE = 16777216 from rfl] using hi
          omega)
        simp only [show KERNEL_THREAD_STACK_FRAMES = 2 from rfl] at hdj
        have hiLit : i < 16777216 := by
          simpa only [show USER_THREAD_STACK_SIZE = 16777216 from rfl] using hi
        simp only [writeBytes,
          show SWITCH_THREADS_CONTEXT_SIZE = 20 from rfl]
        rw [if_neg (by
          rintro ⟨hlo, hhi⟩
          rw [hK2] at hlo hhi
          rw [hU2] at hlo hhi
          omega)]
        rw [humem]
        simp only [writeBytes]
        rw [if_pos ⟨Nat.le_add_right _ _, by
          have : i < USER_THREAD_STACK_SIZE := hi
          omega⟩]

/-- Helper: concrete run of `new_func` on `s0W`: the two first-fit scans
are resolved by `findFreeRun_prefix` (frames 0..1, then 2..4097) and the
rest of the construction is normalized. -/
theorem new_func_s0W_eq : new_func 77 s0W = some (tcbW77, sW77) := by
  have hfind1 : findFreeRun (fun _ => CoreMapEntry.DEFAULT) 5000 2 = some 0 :=
    findFreeRun_prefix _ 5000 2 0 (by decide)
      (fun i hi => absurd hi (Nat.not_lt_zero i))
      (fun i _ => rfl) (by decide)
  have hfind2 : findFreeRun (markAllocated (fun _ => CoreMapEntry.DEFAULT) 0 2) 5000 4096 = some 2 := by
    refine findFreeRun_prefix _ 5000 4096 2 (by decide) ?_ ?_ (by decide)
    · intro i hi
      exact markAllocated_allocated_of _ 0 2 i (Nat.zero_le i) (by omega)
    · intro i hi
      rw [markAllocated_outside _ 0 2 i (by rintro ⟨_, hlt⟩; omega)]
      rfl
  simp only [new_func, allocate_tid, allocate_kernel_stack, allocate_user_stack,
    setup_context, allocate_stack_space, has_stack_space, FrameAlloc.alloc,
    FrameAlloc.new_in, s0W, tcbW77, sW77, sW77mem, faW77,
    show KERNEL_THREAD_STACK_FRAMES = 2 from rfl,
    show USER_THREAD_STACK_FRAMES = 4096 from rfl,
    show PAGE_FRAME_SIZE = 4096 from rfl,
    show KERNEL_THREAD_STACK_SIZE = 8192 from rfl,
    show USER_THREAD_STACK_SIZE = 16777216 from rfl,
    show SWITCH_THREADS_CONTEXT_SIZE = 20 from rfl,
    show SWITCH_CONTEXT_BYTE = 1 from rfl,
    show USER_STACK_BOTTOM_VIRT = 1048576 from rfl,
    hfind1, hfind2,
    Nat.zero_mul, Nat.mul_zero, Nat.add_zero, Nat.zero_add, Nat.add_sub_cancel_left,
    List.nil_append, Nat.reduceAdd, Nat.reduceMod, Nat.reduceMul,
    decide_eq_true_eq, Nat.reduceLeDiff, ite_true]

/-- C7: a TCB built by `new_func(f)` has status `Ready`, `eip` equal to
`f`, `esp` equal to `USER_STACK_BOTTOM_VIRT + USER_THREAD_STACK_SIZE`, no
exit code, and its user stack reads zero everywhere in the post-state. -/
theorem new_func_fields (entry : Nat) (s : KernelState)
    (p : ThreadControlBlock × KernelState) (h : new_func entry s = some p) :
    p.1.status = ThreadStatus.Ready ∧
    p.1.eip = entry ∧
    p.1.esp = USER_STACK_BOTTOM_VIRT + USER_THREAD_STACK_SIZE ∧
    p.1.exit_code = none ∧
    (∀ i, i < USER_THREAD_STACK_SIZE → p.2.mem (p.1.user_stack + i) = 0) := by
  obtain ⟨h1, h2, h3, h4, _, _, _, h8⟩ := new_func_some entry s p h
  exact ⟨h1, h2, h3, h4, h8⟩

/-- Witness for `new_func_fields` at the concrete run on `s0W`. -/
theorem new_func_fields_witness :
    tcbW77.status = ThreadStatus.Ready ∧ tcbW77.eip = 77 ∧
    tcbW77.esp = USER_STACK_BOTTOM_VIRT + USER_THREAD_STACK_SIZE ∧
    tcbW77.exit_code = none :=
  ⟨(new_func_fields 77 s0W (tcbW77, sW77) new_func_s0W_eq).1,
   (new_func_fields 77 s0W (tcbW77, sW77) new_func_s0W_eq).2.1,
   (new_func_fields 77 s0W (tcbW77, sW77) new_func_s0W_eq).2.2.1,
   (new_func_fields 77 s0W (tcbW77, sW77) new_func_s0W_eq).2.2.2.1⟩

/-- C1: the code does NOT restore the frame counters: `new_func` draws
`KERNEL_THREAD_STACK_FRAMES + USER_THREAD_STACK_FRAMES = 4098` frames from
the frame allocator, and `reap` on the dying thread (tid nonzero) only
dangles the pointers — its type does not even touch the allocator state, so
after `new_func(f); reap(f)` the net frames allocated stand at 4098, not
zero, contradicting the claim (the source marks the missing deallocation
with a TODO). -/
theorem new_func_reap_leaks_frames (entry : Nat) (s : KernelState)
    (p : ThreadControlBlock × KernelState) (h : new_func entry s = some p)
    (ht : p.1.tid ≠ 0) :
    reap { p.1 with status := ThreadStatus.Dying } =
      some { p.1 with kernel_stack_pointer := NONNULL_DANGLING, eip := NONNULL_DANGLING, esp := NONNULL_DANGLING, status := ThreadStatus.Invalid } ∧
    p.2.fa.allocTotal = s.fa.allocTotal + (KERNEL_THREAD_STACK_FRAMES + USER_THREAD_STACK_FRAMES) ∧
    p.2.fa.deallocTotal = s.fa.deallocTotal ∧
    KERNEL_THREAD_STACK_FRAMES + USER_THREAD_STACK_FRAMES = 4098 := by
  obtain ⟨_, _, _, _, _, h6, h7, _⟩ := new_func_some entry s p h
  refine ⟨?_, h6, h7, rfl⟩
  simp [reap, ht]

/-- Witness for `new_func_reap_leaks_frames` at the concrete run. -/
theorem new_func_reap_leaks_frames_witness :
    sW77.fa.allocTotal = s0W.fa.allocTotal + (KERNEL_THREAD_STACK_FRAMES + USER_THREAD_STACK_FRAMES) ∧
    sW77.fa.deallocTotal = s0W.fa.deallocTotal ∧
    reap { tcbW77 with status := ThreadStatus.Dying } =
      some { tcbW77 with kernel_stack_pointer := NONNULL_DANGLING, eip := NONNULL_DANGLING, esp := NONNULL_DANGLING, status := ThreadStatus.Invalid } :=
  ⟨(new_func_reap_leaks_frames 77 s0W (tcbW77, sW77) new_func_s0W_eq (by decide)).2.1,
   (new_func_reap_leaks_frames 77 s0W (tcbW77, sW77) new_func_s0W_eq (by decide)).2.2.1,
   (new_func_reap_leaks_frames 77 s0W (tcbW77, sW77) new_func_s0W_eq (by decide)).1⟩

/-- C4 (amended): `reap` may only be applied to a `Dying` thread: any
other status, the already-`Invalid` status included, trips the assertion
(a panic, not a no-op); when the thread is `Dying`, reaping always leaves
the status `Invalid`. -/
theorem reap_contract (tcb : ThreadControlBlock) :
    (tcb.status ≠ ThreadStatus.Dying → reap tcb = none) ∧
    (tcb.status = ThreadStatus.Dying →
      (reap tcb).map (fun t => t.status) = some ThreadStatus.Invalid) := by
  constructor
  · intro h; simp [reap, h]
  · intro h
    by_cases ht : tcb.tid = 0 <;> simp [reap, h, ht]

/-- Witness for `reap_contract`: a `Ready` thread trips the assertion, a
`Dying` thread is reaped to `Invalid`. -/
theorem reap_contract_witness :
    reap readyW = none ∧
    (reap dyingW).map (fun t => t.status) = some ThreadStatus.Invalid :=
  ⟨(reap_contract readyW).1 (by decide), (reap_contract dyingW).2 rfl⟩

/-- C4 (counterexample): reaping a TCB whose status is already `Invalid`
is not an idempotent no-op: the assertion fires (a panic, modelled as
`none`), refuting the claim. -/
theorem reap_invalid_panics :
    invalidW.status = ThreadStatus.Invalid ∧ reap invalidW = none := ⟨rfl, rfl⟩

end KidneyOS
